import Mathlib

/-!
Verification of `cloud/services/managedclusters/managedclusters.go` from
voor/cluster-api-provider-azure.

The Go source is shallowly embedded: the specification structs become Lean
structures, the derivation body of `Service.Reconcile` (lines 103-179) becomes
a pure function built from one step function per source block, and the four
exposed operations become functions over an abstract provider client that also
return the list of client calls performed.  Go `int32` values are modelled as
`Int` (their numeric range plays no role in any claim), Go string-typed SDK
enums as `String`, and `nil`-able pointer fields as `Option`.
-/

namespace ManagedClusters

/-- Package-level default admin user name (source line 32). -/
def defaultUser : String := "azureuser"

/-- Package-level managed-identity marker used as service-principal client id
(source line 33). -/
def managedIdentity : String := "msi"

/-- SDK constant `containerservice.SystemAssigned` (a `ResourceIdentityType`). -/
def SystemAssigned : String := "SystemAssigned"

/-- SDK constant `containerservice.Azure` (a `NetworkPlugin` value). -/
def Azure : String := "azure"

/-- SDK constant `containerservice.Standard` (a `LoadBalancerSku` value). -/
def Standard : String := "standard"

/-- SDK constant `containerservice.NetworkPolicyAzure`. -/
def NetworkPolicyAzure : String := "azure"

/-- SDK constant `containerservice.NetworkPolicyCalico`. -/
def NetworkPolicyCalico : String := "calico"

/-- SDK constant `containerservice.VirtualMachineScaleSets` (an `AgentPoolType`). -/
def VirtualMachineScaleSets : String := "VirtualMachineScaleSets"

/-- PoolSpec mirrors the Go struct `PoolSpec` (source lines 75-80). -/
structure PoolSpec where
  Name : String
  SKU : String
  Replicas : Int
  OSDiskSizeGB : Int
  deriving DecidableEq, Repr

/-- Spec mirrors the Go struct `Spec` (source lines 37-73).  The Go
`map[string]string` tag set is modelled as an association list; pointer-typed
optional fields (`LoadBalancerSKU`, `NetworkPlugin`, `NetworkPolicy`) become
`Option String` where `none` is the `nil` pointer. -/
structure Spec where
  Name : String
  ResourceGroup : String
  Location : String
  Tags : List (String × String)
  Version : String
  LoadBalancerSKU : Option String
  NetworkPlugin : Option String
  NetworkPolicy : Option String
  SSHPublicKey : String
  AgentPools : List PoolSpec
  PodCIDR : String
  ServiceCIDR : String
  deriving DecidableEq, Repr

/-- One element of the SDK slice `[]containerservice.ManagedClusterAgentPoolProfile`
as populated at source lines 171-177.  `PoolType` models the SDK field `Type`. -/
structure ManagedClusterAgentPoolProfile where
  Name : String
  VMSize : String
  OsDiskSizeGB : Int
  Count : Int
  PoolType : String
  deriving DecidableEq, Repr

/-- The SDK struct `containerservice.NetworkProfileType` restricted to the
fields the source writes.  `NetworkPlugin`, `LoadBalancerSku` and
`NetworkPolicy` are Go string-typed enums whose zero value is the empty string
(so `NetworkPolicy = ""` is the unset state); `PodCidr`, `ServiceCidr` and
`DNSServiceIP` are `*string` fields, `nil` modelled as `none`. -/
structure NetworkProfileType where
  NetworkPlugin : String
  LoadBalancerSku : String
  NetworkPolicy : String
  PodCidr : Option String
  ServiceCidr : Option String
  DNSServiceIP : Option String
  deriving DecidableEq, Repr

/-- The SDK struct `containerservice.ManagedCluster` restricted to the fields
the source writes (lines 103-130).  Nested SDK structs are flattened:
`identityType` is `Identity.Type`, `DNSPrefixName` is
`ManagedClusterProperties.DNSPrefix`, `adminUsername` and `sshPublicKeys` come
from the `LinuxProfile`, and `servicePrincipalClientID` from the
`ServicePrincipalProfile`. -/
structure ManagedCluster where
  identityType : String
  Location : String
  DNSPrefixName : String
  KubernetesVersion : String
  adminUsername : String
  sshPublicKeys : List String
  servicePrincipalClientID : String
  AgentPoolProfiles : List ManagedClusterAgentPoolProfile
  NetworkProfile : NetworkProfileType
  deriving DecidableEq, Repr

/-!
Model of the Go standard library `net.ParseCIDR` for IPv4 dotted-quad CIDR
notation.  `net.ParseCIDR` splits at the first slash, parses the address part
(`parseIPv4`, which yields a 16-byte IP carrying the 12-byte
IPv4-in-IPv6 marker, per `net.IPv4`), parses the mask length with `dtoi`,
and returns the unmasked address together with the masked network.  The IPv6
textual grammar of the Go parser is not modelled: every claim and every
example in the specification uses IPv4 notation, over which this model is
byte-for-byte faithful.  Bytes are `Nat` values kept below 256 by the parser
checks themselves.
-/

/-- Overflow threshold of Go `net.dtoi` (`0xFFFFFF`). -/
def bigThreshold : Nat := 0xFFFFFF

/-- Accumulator loop of Go `net.dtoi`: consume leading decimal digits,
returning (value, digits consumed, ok). -/
def dtoiGo : List Char → Nat → Nat → Nat × Nat × Bool
  | [], n, i => if i == 0 then (0, 0, false) else (n, i, true)
  | c :: rest, n, i =>
    if c.isDigit then
      let n2 := n * 10 + (c.toNat - 48)
      if n2 ≥ bigThreshold then (bigThreshold, i + 1, false)
      else dtoiGo rest n2 (i + 1)
    else if i == 0 then (0, 0, false) else (n, i, true)

/-- Go `net.dtoi`: decimal prefix of a string, with digit count and an ok
flag (false on empty prefix or overflow). -/
def dtoi (s : List Char) : Nat × Nat × Bool := dtoiGo s 0 0

/-- The 12-byte IPv4-in-IPv6 marker that `net.IPv4` places in front of the
four address bytes (net/ip.go, `v4InV6`). -/
def v4mapped : List Nat := [0, 0, 0, 0, 0, 0, 0, 0, 0, 0, 0xFF, 0xFF]

/-- One dotted-quad field of Go `parseIPv4`: a decimal value at most 255 with
no extra leading zero; returns the value and the unconsumed characters. -/
def parseIPv4Field (s : List Char) : Option (Nat × List Char) :=
  let r := dtoi s
  if !r.2.2 || r.1 > 0xFF then none
  else if r.2.1 > 1 && s.head? == some '0' then none
  else some (r.1, s.drop r.2.1)

/-- Remaining dot-prefixed fields of Go `parseIPv4` (the loop iterations with
`i > 0`), `k` fields still expected. -/
def parseIPv4Rest : Nat → List Char → Option (List Nat)
  | 0, s => if s.isEmpty then some [] else none
  | k + 1, s =>
    match s with
    | '.' :: r =>
      match parseIPv4Field r with
      | some (n, rest) => (parseIPv4Rest k rest).map (fun l => n :: l)
      | none => none
    | _ => none

/-- Go `parseIPv4`: four dot-separated decimal octets, producing the 16-byte
representation returned by `net.IPv4`. -/
def parseIPv4 (s : List Char) : Option (List Nat) :=
  match parseIPv4Field s with
  | some (n, rest) => (parseIPv4Rest 3 rest).map (fun l => v4mapped ++ n :: l)
  | none => none

/-- Split a character list at the first slash, as `net.ParseCIDR` does with
`byteIndex(s, '/')`; `none` when no slash occurs. -/
def splitSlash : List Char → Option (List Char × List Char)
  | [] => none
  | '/' :: r => some ([], r)
  | c :: r => (splitSlash r).map (fun p => (c :: p.1, p.2))

/-- Go `net.CIDRMask(ones, 32)` as a list of four mask bytes. -/
def cidrMask (ones : Nat) : List Nat :=
  (List.range 4).map (fun i => 256 - 2 ^ (8 - min 8 (ones - 8 * i)))

/-- Go `IP.Mask` for a 16-byte IPv4-mapped address and a 4-byte mask: the
address is cut down to its last four bytes and masked bytewise. -/
def maskIP (ip m : List Nat) : List Nat :=
  List.zipWith (fun a b => a &&& b) (ip.drop 12) m

/-- Go `net.ParseCIDR` over IPv4 notation: returns the unmasked 16-byte
address, the masked 4-byte network address, and the 4-byte mask; `none` where
the Go function returns a `ParseError`. -/
def net_ParseCIDR (str : String) : Option (List Nat × List Nat × List Nat) :=
  match splitSlash str.data with
  | none => none
  | some (addr, mask) =>
    match parseIPv4 addr with
    | none => none
    | some ip =>
      let r := dtoi mask
      if !r.2.2 || r.2.1 != mask.length || r.1 > 32 then none
      else
        let m := cidrMask r.1
        some (ip, maskIP ip m, m)

/-- Error text of a Go `net.ParseError` with type `CIDR address`, as produced
by every failure branch of `net.ParseCIDR`. -/
def invalidCIDRText (s : String) : String :=
  "invalid CIDR address: " ++ s

/-- Go `IP.String` for the address shapes occurring here: a 16-byte
IPv4-mapped address (printed as its last four bytes) or a bare 4-byte
address, dotted-decimal either way. -/
def ipString (ip : List Nat) : String :=
  let p4 := if ip.length == 16 && ip.take 12 == v4mapped then ip.drop 12 else ip
  String.intercalate "." (p4.map (fun b => toString b))

/-- ASCII lower-casing of one character. -/
def asciiLower (c : Char) : Char :=
  if 'A' ≤ c ∧ c ≤ 'Z' then Char.ofNat (c.toNat + 32) else c

/-- Go `strings.EqualFold` restricted to ASCII, where it coincides with
lower-casing both sides (all values compared in the source are ASCII). -/
def strEqualFold (a b : String) : Bool :=
  a.data.map asciiLower == b.data.map asciiLower

/-!
The derivation body of `Service.Reconcile` (source lines 103-179), split into
one function per source block and composed in source order.
-/

/-- The `containerservice.ManagedCluster` literal built at source lines
103-130: managed identity, location, DNS prefix and version from the spec,
fixed Linux admin user with the SSH key of the spec, managed-identity service
principal, empty agent-pool slice, and network profile defaults
(`Azure` plugin, `Standard` load-balancer SKU, every other field zero). -/
def initialProperties (s : Spec) : ManagedCluster :=
  { identityType := SystemAssigned
    Location := s.Location
    DNSPrefixName := s.Name
    KubernetesVersion := s.Version
    adminUsername := defaultUser
    sshPublicKeys := [s.SSHPublicKey]
    servicePrincipalClientID := managedIdentity
    AgentPoolProfiles := []
    NetworkProfile :=
      { NetworkPlugin := Azure
        LoadBalancerSku := Standard
        NetworkPolicy := ""
        PodCidr := none
        ServiceCidr := none
        DNSServiceIP := none } }

/-- Source lines 132-134: a non-nil `NetworkPlugin` replaces the default via
the SDK string cast. -/
def applyNetworkPlugin (s : Spec) (p : ManagedCluster) : ManagedCluster :=
  match s.NetworkPlugin with
  | some v => { p with NetworkProfile := { p.NetworkProfile with NetworkPlugin := v } }
  | none => p

/-- Source lines 136-138: a non-empty `PodCIDR` is propagated verbatim. -/
def applyPodCidr (s : Spec) (p : ManagedCluster) : ManagedCluster :=
  if s.PodCIDR != "" then
    { p with NetworkProfile := { p.NetworkProfile with PodCidr := some s.PodCIDR } }
  else p

/-- Source lines 140-154: a non-empty `ServiceCIDR` is propagated verbatim and
parsed; on parse failure the whole derivation fails with the wrapped parse
error; on success byte 15 of the parsed (unmasked) address is overwritten
with 10 and the result rendered as the DNS service IP. -/
def applyServiceCidr (s : Spec) (p : ManagedCluster) : Except String ManagedCluster :=
  if s.ServiceCIDR != "" then
    match net_ParseCIDR s.ServiceCIDR with
    | none => .error ("failed to parse service cidr: " ++ invalidCIDRText s.ServiceCIDR)
    | some r =>
      let ip := r.1.set 15 10
      let dnsIP := ipString ip
      .ok { p with NetworkProfile :=
              { p.NetworkProfile with
                  ServiceCidr := some s.ServiceCIDR
                  DNSServiceIP := some dnsIP } }
  else .ok p

/-- Error text of source line 162 for an unrecognized network policy value. -/
def invalidPolicyText (np : String) : String :=
  "invalid network policy: \x27" ++ np ++ "\x27. Allowed options are \x27calico\x27 and \x27azure\x27"

/-- Source lines 156-164: a non-nil `NetworkPolicy` is folded case-insensitively
against `Azure` and `Calico`; anything else fails the derivation. -/
def applyNetworkPolicy (s : Spec) (p : ManagedCluster) : Except String ManagedCluster :=
  match s.NetworkPolicy with
  | some np =>
    if strEqualFold np "Azure" then
      .ok { p with NetworkProfile := { p.NetworkProfile with NetworkPolicy := NetworkPolicyAzure } }
    else if strEqualFold np "Calico" then
      .ok { p with NetworkProfile := { p.NetworkProfile with NetworkPolicy := NetworkPolicyCalico } }
    else .error (invalidPolicyText np)
  | none => .ok p

/-- Source lines 166-168: a non-nil `LoadBalancerSKU` replaces the default via
the SDK string cast. -/
def applyLoadBalancerSKU (s : Spec) (p : ManagedCluster) : ManagedCluster :=
  match s.LoadBalancerSKU with
  | some v => { p with NetworkProfile := { p.NetworkProfile with LoadBalancerSku := v } }
  | none => p

/-- The agent-pool profile built for one pool at source lines 171-177. -/
def poolProfile (pool : PoolSpec) : ManagedClusterAgentPoolProfile :=
  { Name := pool.Name
    VMSize := pool.SKU
    OsDiskSizeGB := pool.OSDiskSizeGB
    Count := pool.Replicas
    PoolType := VirtualMachineScaleSets }

/-- Source lines 170-179: the range-append loop over `AgentPools`, modelled as
a left fold appending one profile per pool to the existing slice. -/
def applyAgentPools (s : Spec) (p : ManagedCluster) : ManagedCluster :=
  { p with AgentPoolProfiles :=
      s.AgentPools.foldl (fun acc pool => acc ++ [poolProfile pool]) p.AgentPoolProfiles }

/-- The full derivation performed by `Service.Reconcile` before the client
call (source lines 103-179), in source order. -/
def reconcileDerive (s : Spec) : Except String ManagedCluster :=
  match applyServiceCidr s (applyPodCidr s (applyNetworkPlugin s (initialProperties s))) with
  | .error e => .error e
  | .ok p =>
    match applyNetworkPolicy s p with
    | .error e => .error e
    | .ok q => .ok (applyAgentPools s (applyLoadBalancerSKU s q))

/-!
The four exposed operations (source lines 83-208).  The opaque `interface{}`
specification parameter becomes `SpecInput`: a dynamic value either of the
concrete pointer type `*Spec` (possibly the nil pointer) or of any other
dynamic type.  The provider client `azure.Client` becomes a structure of
response functions, and each operation returns its Go result together with
the list of client calls it performed, so that "performs no remote call" is
a statement about that list.  A Go panic from dereferencing a nil `*Spec`
is the explicit outcome `nilPanic`.
-/

/-- Raw cluster representation of the provider returned by `Client.Get`,
opaque to this core. -/
def ProviderResource : Type := String

/-- Dynamic value passed as the `interface:` spec parameter: a `*Spec`
pointer (nil when `none`) or a value of any other dynamic type, for which the
type assertion `spec.(*Spec)` fails. -/
inductive SpecInput where
  | ptr (p : Option Spec)
  | other
  deriving DecidableEq

/-- Error value returned by `Client.Delete`, with the predicate
`azure.ResourceNotFound` evaluated on it carried as a flag. -/
structure GoDeleteError where
  msg : String
  resourceNotFound : Bool
  deriving DecidableEq

/-- One call reaching the provider client. -/
inductive ClientCall where
  | get (rg name : String)
  | getCredentials (rg name : String)
  | createOrUpdate (rg name : String) (mc : ManagedCluster)
  | delete (rg name : String)
  deriving DecidableEq

/-- The provider client as response functions: what each remote operation
would return for given arguments.  Error values are modelled by their
message strings. -/
structure Client where
  getResp : String → String → Except String ProviderResource
  getCredentialsResp : String → String → Except String String
  createOrUpdateResp : String → String → ManagedCluster → Option String
  deleteResp : String → String → Option GoDeleteError

/-- Outcome of an operation: the Go return value, a Go error (by message), or
a runtime panic (nil `*Spec` dereference). -/
inductive OpOutcome (α : Type) where
  | ok (a : α)
  | goError (msg : String)
  | nilPanic
  deriving DecidableEq

/-- Message of the failed type assertion in Get, Reconcile and Delete
(source lines 86, 100, 193). -/
def wrongSpecText : String := "expected managed cluster specification"

/-- Wrapper text of source line 183; `fmt.Errorf` with `%#+v` renders the
client error value, modelled here by its message string. -/
def createOrUpdateErrText (e : String) : String :=
  "failed to create or update managed cluster, " ++ e

/-- Wrapper text of source line 203 (`errors.Wrapf` renders as
`message: cause`). -/
def deleteErrText (name rg cause : String) : String :=
  "failed to delete managed cluster " ++ name ++ " in resource group " ++ rg ++ ": " ++ cause

namespace Service

/-- Source lines 83-89: `Get` type-asserts the spec, then forwards to
`Client.Get` with resource group and name, returning the client result
unchanged.  A nil `*Spec` passes the assertion and panics reading
`ResourceGroup` before any call is made. -/
def Get (c : Client) (spec : SpecInput) : OpOutcome ProviderResource × List ClientCall :=
  match spec with
  | .other => (.goError wrongSpecText, [])
  | .ptr none => (.nilPanic, [])
  | .ptr (some s) =>
    (match c.getResp s.ResourceGroup s.Name with
     | .ok r => .ok r
     | .error e => .goError e,
     [.get s.ResourceGroup s.Name])

/-- Source lines 92-94: `GetCredentials` takes resource group and name
directly (no specification parameter, no shape guard) and forwards to the
client unconditionally. -/
def GetCredentials (c : Client) (group name : String) : Except String String × List ClientCall :=
  (c.getCredentialsResp group name, [.getCredentials group name])

/-- Source lines 97-187: `Reconcile` type-asserts the spec, runs the
derivation of lines 103-179 (`reconcileDerive`), and on success calls
`Client.CreateOrUpdate`, wrapping any client error with the line-183 text.
A nil `*Spec` passes the assertion and panics reading `Location` at line 107,
before any call is made. -/
def Reconcile (c : Client) (spec : SpecInput) : OpOutcome Unit × List ClientCall :=
  match spec with
  | .other => (.goError wrongSpecText, [])
  | .ptr none => (.nilPanic, [])
  | .ptr (some s) =>
    match reconcileDerive s with
    | .error e => (.goError e, [])
    | .ok props =>
      match c.createOrUpdateResp s.ResourceGroup s.Name props with
      | some e => (.goError (createOrUpdateErrText e), [.createOrUpdate s.ResourceGroup s.Name props])
      | none => (.ok (), [.createOrUpdate s.ResourceGroup s.Name props])

/-- Source lines 190-208: `Delete` type-asserts the spec and calls
`Client.Delete`; a client error satisfying `azure.ResourceNotFound` is
suppressed (already deleted, success), any other client error is wrapped with
cluster name and resource group.  A nil `*Spec` passes the assertion and
panics reading `Name` in the log statement at line 196, before any call. -/
def Delete (c : Client) (spec : SpecInput) : OpOutcome Unit × List ClientCall :=
  match spec with
  | .other => (.goError wrongSpecText, [])
  | .ptr none => (.nilPanic, [])
  | .ptr (some s) =>
    match c.deleteResp s.ResourceGroup s.Name with
    | none => (.ok (), [.delete s.ResourceGroup s.Name])
    | some e =>
      if e.resourceNotFound then (.ok (), [.delete s.ResourceGroup s.Name])
      else (.goError (deleteErrText s.Name s.ResourceGroup e.msg), [.delete s.ResourceGroup s.Name])

end Service

/-!
Statement-level audit of the specification value for the frame claim: each
definition below gives the value of the pointed-to `Spec` struct after the
corresponding source block, translated statement by statement.  Every
assignment in those blocks targets a local (`properties`, `ip`, `dnsIP`,
`profile`, `err`) — none targets a field of `*managedClusterSpec`, and the
slice written at line 150 is freshly allocated by `net.ParseCIDR` from an
immutable string value, so it cannot alias the spec.
-/

/-- Spec value after source lines 103-130 (the `properties` literal only
reads spec fields and takes their addresses). -/
def specAfterInitialProperties (s : Spec) : Spec := s

/-- Spec value after source lines 132-134 (writes `properties.NetworkProfile`). -/
def specAfterNetworkPlugin (s : Spec) : Spec := s

/-- Spec value after source lines 136-138 (writes `properties.NetworkProfile`). -/
def specAfterPodCidr (s : Spec) : Spec := s

/-- Spec value after source lines 140-154 (writes `properties.NetworkProfile`
and byte 15 of the freshly parsed local slice `ip`). -/
def specAfterServiceCidr (s : Spec) : Spec := s

/-- Spec value after source lines 156-164 (writes `properties.NetworkProfile`). -/
def specAfterNetworkPolicy (s : Spec) : Spec := s

/-- Spec value after source lines 166-168 (writes `properties.NetworkProfile`). -/
def specAfterLoadBalancerSKU (s : Spec) : Spec := s

/-- Spec value after source lines 170-179 (writes the locals `profile` and
`properties.AgentPoolProfiles`). -/
def specAfterAgentPools (s : Spec) : Spec := s

/-- Spec value after a full `Reconcile` body (lines 97-187): the composition
of the per-block effects above; lines 181-186 only read spec fields. -/
def reconcileSpecPost (s : Spec) : Spec :=
  specAfterAgentPools (specAfterLoadBalancerSKU (specAfterNetworkPolicy
    (specAfterServiceCidr (specAfterPodCidr (specAfterNetworkPlugin
      (specAfterInitialProperties s))))))

/-- Spec value after a full `Get` body (lines 83-89): both statements only
read spec fields. -/
def getSpecPost (s : Spec) : Spec := s

/-- Spec value after a full `Delete` body (lines 190-208): all statements only
read spec fields. -/
def deleteSpecPost (s : Spec) : Spec := s

/-- Spec value after a full `GetCredentials` body (lines 92-94): the operation
does not even receive the specification. -/
def getCredentialsSpecPost (s : Spec) : Spec := s

/-!
Helper lemmas: how each derivation step treats the individual fields of the
resource under construction.
-/

lemma foldl_append_singleton {α β : Type} (f : α → β) :
    ∀ (l : List α) (acc : List β),
      l.foldl (fun a x => a ++ [f x]) acc = acc ++ l.map f
  | [], acc => by simp
  | x :: xs, acc => by
      simp only [List.foldl_cons, List.map_cons, foldl_append_singleton f xs]
      simp

lemma applyNetworkPlugin_plugin (s : Spec) (p : ManagedCluster) :
    (applyNetworkPlugin s p).NetworkProfile.NetworkPlugin
      = s.NetworkPlugin.getD p.NetworkProfile.NetworkPlugin := by
  cases h : s.NetworkPlugin <;> simp [applyNetworkPlugin, h]

lemma applyNetworkPlugin_preserves (s : Spec) (p : ManagedCluster) :
    (applyNetworkPlugin s p).NetworkProfile.LoadBalancerSku = p.NetworkProfile.LoadBalancerSku ∧
    (applyNetworkPlugin s p).NetworkProfile.NetworkPolicy = p.NetworkProfile.NetworkPolicy ∧
    (applyNetworkPlugin s p).NetworkProfile.ServiceCidr = p.NetworkProfile.ServiceCidr ∧
    (applyNetworkPlugin s p).NetworkProfile.DNSServiceIP = p.NetworkProfile.DNSServiceIP ∧
    (applyNetworkPlugin s p).AgentPoolProfiles = p.AgentPoolProfiles := by
  cases h : s.NetworkPlugin <;> simp [applyNetworkPlugin, h]

lemma applyPodCidr_preserves (s : Spec) (p : ManagedCluster) :
    (applyPodCidr s p).NetworkProfile.NetworkPlugin = p.NetworkProfile.NetworkPlugin ∧
    (applyPodCidr s p).NetworkProfile.LoadBalancerSku = p.NetworkProfile.LoadBalancerSku ∧
    (applyPodCidr s p).NetworkProfile.NetworkPolicy = p.NetworkProfile.NetworkPolicy ∧
    (applyPodCidr s p).NetworkProfile.ServiceCidr = p.NetworkProfile.ServiceCidr ∧
    (applyPodCidr s p).NetworkProfile.DNSServiceIP = p.NetworkProfile.DNSServiceIP ∧
    (applyPodCidr s p).AgentPoolProfiles = p.AgentPoolProfiles := by
  unfold applyPodCidr; split <;> simp

lemma applyServiceCidr_empty (s : Spec) (p : ManagedCluster) (h : s.ServiceCIDR = "") :
    applyServiceCidr s p = .ok p := by
  unfold applyServiceCidr; simp [h]

lemma applyServiceCidr_parse_none (s : Spec) (p : ManagedCluster)
    (h1 : s.ServiceCIDR ≠ "") (h2 : net_ParseCIDR s.ServiceCIDR = none) :
    applyServiceCidr s p
      = .error ("failed to parse service cidr: " ++ invalidCIDRText s.ServiceCIDR) := by
  unfold applyServiceCidr; simp [h1, h2]

lemma applyServiceCidr_parse_some (s : Spec) (p : ManagedCluster)
    (r : List Nat × List Nat × List Nat)
    (h1 : s.ServiceCIDR ≠ "") (h2 : net_ParseCIDR s.ServiceCIDR = some r) :
    applyServiceCidr s p
      = .ok { p with NetworkProfile :=
                { p.NetworkProfile with
                    ServiceCidr := some s.ServiceCIDR
                    DNSServiceIP := some (ipString (r.1.set 15 10)) } } := by
  unfold applyServiceCidr; simp [h1, h2]

lemma applyServiceCidr_ok_preserves (s : Spec) (p q : ManagedCluster)
    (h : applyServiceCidr s p = .ok q) :
    q.NetworkProfile.NetworkPlugin = p.NetworkProfile.NetworkPlugin ∧
    q.NetworkProfile.LoadBalancerSku = p.NetworkProfile.LoadBalancerSku ∧
    q.NetworkProfile.NetworkPolicy = p.NetworkProfile.NetworkPolicy ∧
    q.AgentPoolProfiles = p.AgentPoolProfiles := by
  by_cases h1 : s.ServiceCIDR = ""
  · rw [applyServiceCidr_empty s p h1] at h
    cases h; simp
  · cases h2 : net_ParseCIDR s.ServiceCIDR with
    | none => rw [applyServiceCidr_parse_none s p h1 h2] at h; cases h
    | some r =>
      rw [applyServiceCidr_parse_some s p r h1 h2] at h
      cases h; simp

lemma applyNetworkPolicy_none (s : Spec) (p : ManagedCluster)
    (h : s.NetworkPolicy = none) : applyNetworkPolicy s p = .ok p := by
  unfold applyNetworkPolicy; simp [h]

lemma applyNetworkPolicy_azure (s : Spec) (p : ManagedCluster) (np : String)
    (h : s.NetworkPolicy = some np) (ha : strEqualFold np "Azure" = true) :
    applyNetworkPolicy s p
      = .ok { p with NetworkProfile :=
                { p.NetworkProfile with NetworkPolicy := NetworkPolicyAzure } } := by
  unfold applyNetworkPolicy; simp [h, ha]

lemma applyNetworkPolicy_calico (s : Spec) (p : ManagedCluster) (np : String)
    (h : s.NetworkPolicy = some np) (ha : strEqualFold np "Azure" = false)
    (hc : strEqualFold np "Calico" = true) :
    applyNetworkPolicy s p
      = .ok { p with NetworkProfile :=
                { p.NetworkProfile with NetworkPolicy := NetworkPolicyCalico } } := by
  unfold applyNetworkPolicy; simp [h, ha, hc]

lemma applyNetworkPolicy_invalid (s : Spec) (p : ManagedCluster) (np : String)
    (h : s.NetworkPolicy = some np) (ha : strEqualFold np "Azure" = false)
    (hc : strEqualFold np "Calico" = false) :
    applyNetworkPolicy s p = .error (invalidPolicyText np) := by
  unfold applyNetworkPolicy; simp [h, ha, hc]

lemma applyNetworkPolicy_ok_preserves (s : Spec) (p q : ManagedCluster)
    (h : applyNetworkPolicy s p = .ok q) :
    q.NetworkProfile.NetworkPlugin = p.NetworkProfile.NetworkPlugin ∧
    q.NetworkProfile.LoadBalancerSku = p.NetworkProfile.LoadBalancerSku ∧
    q.NetworkProfile.ServiceCidr = p.NetworkProfile.ServiceCidr ∧
    q.NetworkProfile.DNSServiceIP = p.NetworkProfile.DNSServiceIP ∧
    q.AgentPoolProfiles = p.AgentPoolProfiles := by
  unfold applyNetworkPolicy at h
  cases hp : s.NetworkPolicy with
  | none => rw [hp] at h; cases h; simp
  | some np =>
    rw [hp] at h
    by_cases ha : strEqualFold np "Azure" = true
    · simp only [ha, if_true] at h; cases h; simp
    · simp only [eq_false_of_ne_true ha, if_false] at h
      by_cases hc : strEqualFold np "Calico" = true
      · simp only [hc, if_true] at h; cases h; simp
      · simp only [eq_false_of_ne_true hc, if_false] at h; cases h

lemma applyLoadBalancerSKU_sku (s : Spec) (p : ManagedCluster) :
    (applyLoadBalancerSKU s p).NetworkProfile.LoadBalancerSku
      = s.LoadBalancerSKU.getD p.NetworkProfile.LoadBalancerSku := by
  cases h : s.LoadBalancerSKU <;> simp [applyLoadBalancerSKU, h]

lemma applyLoadBalancerSKU_preserves (s : Spec) (p : ManagedCluster) :
    (applyLoadBalancerSKU s p).NetworkProfile.NetworkPlugin = p.NetworkProfile.NetworkPlugin ∧
    (applyLoadBalancerSKU s p).NetworkProfile.NetworkPolicy = p.NetworkProfile.NetworkPolicy ∧
    (applyLoadBalancerSKU s p).NetworkProfile.ServiceCidr = p.NetworkProfile.ServiceCidr ∧
    (applyLoadBalancerSKU s p).NetworkProfile.DNSServiceIP = p.NetworkProfile.DNSServiceIP ∧
    (applyLoadBalancerSKU s p).AgentPoolProfiles = p.AgentPoolProfiles := by
  cases h : s.LoadBalancerSKU <;> simp [applyLoadBalancerSKU, h]

lemma applyAgentPools_profile (s : Spec) (p : ManagedCluster) :
    (applyAgentPools s p).NetworkProfile = p.NetworkProfile := rfl

lemma applyAgentPools_pools (s : Spec) (p : ManagedCluster) :
    (applyAgentPools s p).AgentPoolProfiles
      = p.AgentPoolProfiles ++ s.AgentPools.map poolProfile := by
  unfold applyAgentPools
  simp [foldl_append_singleton]

lemma reconcileDerive_ok_elim (s : Spec) (mc : ManagedCluster)
    (hok : reconcileDerive s = .ok mc) :
    ∃ p q, applyServiceCidr s (applyPodCidr s (applyNetworkPlugin s (initialProperties s))) = .ok p ∧
      applyNetworkPolicy s p = .ok q ∧
      mc = applyAgentPools s (applyLoadBalancerSKU s q) := by
  unfold reconcileDerive at hok
  cases h1 : applyServiceCidr s (applyPodCidr s (applyNetworkPlugin s (initialProperties s))) with
  | error e => rw [h1] at hok; cases hok
  | ok p =>
    rw [h1] at hok
    dsimp only at hok
    cases h2 : applyNetworkPolicy s p with
    | error e => rw [h2] at hok; cases hok
    | ok q =>
      rw [h2] at hok
      dsimp only at hok
      cases hok
      exact ⟨p, q, rfl, h2, rfl⟩

lemma reconcileDerive_ok_plugin (s : Spec) (mc : ManagedCluster)
    (hok : reconcileDerive s = .ok mc) :
    mc.NetworkProfile.NetworkPlugin = s.NetworkPlugin.getD Azure := by
  obtain ⟨p, q, h1, h2, h3⟩ := reconcileDerive_ok_elim s mc hok
  have hpre := applyPodCidr_preserves s (applyNetworkPlugin s (initialProperties s))
  have h1p := applyServiceCidr_ok_preserves s _ p h1
  have h2p := applyNetworkPolicy_ok_preserves s p q h2
  have hlb := applyLoadBalancerSKU_preserves s q
  subst h3
  rw [applyAgentPools_profile, hlb.1, h2p.1, h1p.1, hpre.1, applyNetworkPlugin_plugin]
  rfl

lemma reconcileDerive_ok_sku (s : Spec) (mc : ManagedCluster)
    (hok : reconcileDerive s = .ok mc) :
    mc.NetworkProfile.LoadBalancerSku = s.LoadBalancerSKU.getD Standard := by
  obtain ⟨p, q, h1, h2, h3⟩ := reconcileDerive_ok_elim s mc hok
  have hpre := applyPodCidr_preserves s (applyNetworkPlugin s (initialProperties s))
  have hplug := applyNetworkPlugin_preserves s (initialProperties s)
  have h1p := applyServiceCidr_ok_preserves s _ p h1
  have h2p := applyNetworkPolicy_ok_preserves s p q h2
  subst h3
  rw [applyAgentPools_profile, applyLoadBalancerSKU_sku, h2p.2.1, h1p.2.1, hpre.2.1, hplug.1]
  rfl

lemma reconcileDerive_ok_pools (s : Spec) (mc : ManagedCluster)
    (hok : reconcileDerive s = .ok mc) :
    mc.AgentPoolProfiles = s.AgentPools.map poolProfile := by
  obtain ⟨p, q, h1, h2, h3⟩ := reconcileDerive_ok_elim s mc hok
  have hpre := applyPodCidr_preserves s (applyNetworkPlugin s (initialProperties s))
  have hplug := applyNetworkPlugin_preserves s (initialProperties s)
  have h1p := applyServiceCidr_ok_preserves s _ p h1
  have h2p := applyNetworkPolicy_ok_preserves s p q h2
  have hlb := applyLoadBalancerSKU_preserves s q
  subst h3
  rw [applyAgentPools_pools, hlb.2.2.2.2, h2p.2.2.2.2, h1p.2.2.2, hpre.2.2.2.2.2,
    hplug.2.2.2.2]
  simp [initialProperties]

lemma reconcileDerive_ok_dns (s : Spec) (mc : ManagedCluster)
    (hne : s.ServiceCIDR ≠ "") (hok : reconcileDerive s = .ok mc) :
    mc.NetworkProfile.ServiceCidr = some s.ServiceCIDR ∧
    ∃ r, net_ParseCIDR s.ServiceCIDR = some r ∧
      mc.NetworkProfile.DNSServiceIP = some (ipString (r.1.set 15 10)) := by
  obtain ⟨p, q, h1, h2, h3⟩ := reconcileDerive_ok_elim s mc hok
  cases hcp : net_ParseCIDR s.ServiceCIDR with
  | none =>
    rw [applyServiceCidr_parse_none s _ hne hcp] at h1
    cases h1
  | some r =>
    rw [applyServiceCidr_parse_some s _ r hne hcp] at h1
    cases h1
    have h2p := applyNetworkPolicy_ok_preserves s _ q h2
    have hlb := applyLoadBalancerSKU_preserves s q
    subst h3
    rw [applyAgentPools_profile]
    refine ⟨?_, r, rfl, ?_⟩
    · rw [hlb.2.2.1, h2p.2.2.1]
    · rw [hlb.2.2.2.1, h2p.2.2.2.1]

lemma reconcileDerive_ok_cidr_empty (s : Spec) (mc : ManagedCluster)
    (he : s.ServiceCIDR = "") (hok : reconcileDerive s = .ok mc) :
    mc.NetworkProfile.ServiceCidr = none ∧ mc.NetworkProfile.DNSServiceIP = none := by
  obtain ⟨p, q, h1, h2, h3⟩ := reconcileDerive_ok_elim s mc hok
  rw [applyServiceCidr_empty s _ he] at h1
  cases h1
  have hpre := applyPodCidr_preserves s (applyNetworkPlugin s (initialProperties s))
  have hplug := applyNetworkPlugin_preserves s (initialProperties s)
  have h2p := applyNetworkPolicy_ok_preserves s _ q h2
  have hlb := applyLoadBalancerSKU_preserves s q
  subst h3
  rw [applyAgentPools_profile]
  constructor
  · rw [hlb.2.2.1, h2p.2.2.1, hpre.2.2.2.1, hplug.2.2.1]
    rfl
  · rw [hlb.2.2.2.1, h2p.2.2.2.1, hpre.2.2.2.2.1, hplug.2.2.2.1]
    rfl

lemma reconcileDerive_ok_policy_none (s : Spec) (mc : ManagedCluster)
    (hp : s.NetworkPolicy = none) (hok : reconcileDerive s = .ok mc) :
    mc.NetworkProfile.NetworkPolicy = "" := by
  obtain ⟨p, q, h1, h2, h3⟩ := reconcileDerive_ok_elim s mc hok
  rw [applyNetworkPolicy_none s p hp] at h2
  cases h2
  have hpre := applyPodCidr_preserves s (applyNetworkPlugin s (initialProperties s))
  have hplug := applyNetworkPlugin_preserves s (initialProperties s)
  have h1p := applyServiceCidr_ok_preserves s _ p h1
  have hlb := applyLoadBalancerSKU_preserves s p
  subst h3
  rw [applyAgentPools_profile, hlb.2.1, h1p.2.2.1, hpre.2.2.1, hplug.2.1]
  rfl

lemma reconcileDerive_ok_policy_azure (s : Spec) (mc : ManagedCluster) (np : String)
    (hp : s.NetworkPolicy = some np) (ha : strEqualFold np "Azure" = true)
    (hok : reconcileDerive s = .ok mc) :
    mc.NetworkProfile.NetworkPolicy = NetworkPolicyAzure := by
  obtain ⟨p, q, h1, h2, h3⟩ := reconcileDerive_ok_elim s mc hok
  rw [applyNetworkPolicy_azure s p np hp ha] at h2
  cases h2
  subst h3
  rw [applyAgentPools_profile, (applyLoadBalancerSKU_preserves s _).2.1]

lemma reconcileDerive_ok_policy_calico (s : Spec) (mc : ManagedCluster) (np : String)
    (hp : s.NetworkPolicy = some np) (ha : strEqualFold np "Azure" = false)
    (hc : strEqualFold np "Calico" = true)
    (hok : reconcileDerive s = .ok mc) :
    mc.NetworkProfile.NetworkPolicy = NetworkPolicyCalico := by
  obtain ⟨p, q, h1, h2, h3⟩ := reconcileDerive_ok_elim s mc hok
  rw [applyNetworkPolicy_calico s p np hp ha hc] at h2
  cases h2
  subst h3
  rw [applyAgentPools_profile, (applyLoadBalancerSKU_preserves s _).2.1]

lemma reconcileDerive_invalid_policy_fails (s : Spec) (np : String)
    (hp : s.NetworkPolicy = some np) (ha : strEqualFold np "Azure" = false)
    (hc : strEqualFold np "Calico" = false) :
    ∃ e, reconcileDerive s = .error e := by
  unfold reconcileDerive
  cases h1 : applyServiceCidr s (applyPodCidr s (applyNetworkPlugin s (initialProperties s))) with
  | error e => exact ⟨e, rfl⟩
  | ok p =>
    dsimp only
    rw [applyNetworkPolicy_invalid s p np hp ha hc]
    exact ⟨invalidPolicyText np, rfl⟩

lemma reconcileDerive_invalid_policy_msg (s : Spec) (np : String)
    (hp : s.NetworkPolicy = some np) (ha : strEqualFold np "Azure" = false)
    (hc : strEqualFold np "Calico" = false)
    (hcidr : s.ServiceCIDR = "" ∨ (net_ParseCIDR s.ServiceCIDR).isSome) :
    reconcileDerive s = .error (invalidPolicyText np) := by
  unfold reconcileDerive
  cases h1 : applyServiceCidr s (applyPodCidr s (applyNetworkPlugin s (initialProperties s))) with
  | error e =>
    exfalso
    rcases hcidr with he | hs
    · rw [applyServiceCidr_empty s _ he] at h1; cases h1
    · by_cases hne : s.ServiceCIDR = ""
      · rw [applyServiceCidr_empty s _ hne] at h1; cases h1
      · cases hcp : net_ParseCIDR s.ServiceCIDR with
        | none => rw [hcp] at hs; cases hs
        | some r => rw [applyServiceCidr_parse_some s _ r hne hcp] at h1; cases h1
  | ok p =>
    dsimp only
    rw [applyNetworkPolicy_invalid s p np hp ha hc]

/-!
Checkers used to state claimed examples, and concrete fixtures.
-/

/-- Membership of a dotted-quad address in a CIDR block: both are parsed and
the masked address is compared with the network address. -/
def cidrContainsIP (cidr ipStr : String) : Bool :=
  match net_ParseCIDR cidr, parseIPv4 ipStr.data with
  | some r, some ip => maskIP ip r.2.2 == r.2.1
  | _, _ => false

/-- Final octet of a dotted-quad address. -/
def ipLastOctet (ipStr : String) : Option Nat :=
  (parseIPv4 ipStr.data).map (fun l => l.getLastD 0)

/-- Modelled from the spec: the DNS service IP obtained by taking the parsed
first address of the NETWORK (the masked base address of the CIDR block) and
overwriting its low-order byte with 10, following the words of the specification;
stated for comparison with the source behaviour, which uses the unmasked
parsed address instead. -/
def specNetworkFirstDNSIP (cidr : String) : Option String :=
  (net_ParseCIDR cidr).map (fun r => ipString (r.2.1.set 3 10))

/-- A well-formed specification used as the base of the concrete fixtures. -/
def baseSpec : Spec :=
  { Name := "my-cluster"
    ResourceGroup := "my-rg"
    Location := "westus2"
    Tags := [("env", "test")]
    Version := "1.18.2"
    LoadBalancerSKU := none
    NetworkPlugin := none
    NetworkPolicy := none
    SSHPublicKey := "ssh-rsa AAAA"
    AgentPools := []
    PodCIDR := ""
    ServiceCIDR := "" }

def specCidr1096 : Spec := { baseSpec with ServiceCIDR := "10.96.0.0/12" }

def specCidrOffset : Spec := { baseSpec with ServiceCIDR := "10.96.5.7/12" }

def specBadCidr : Spec := { baseSpec with ServiceCIDR := "not-a-cidr" }

def specWeaveBadCidr : Spec :=
  { baseSpec with NetworkPolicy := some "weave", ServiceCIDR := "not-a-cidr" }

def specPolAzure : Spec := { baseSpec with NetworkPolicy := some "Azure" }

def specPolCalico : Spec := { baseSpec with NetworkPolicy := some "calico" }

def specPolWeave : Spec := { baseSpec with NetworkPolicy := some "weave" }

def specCustom : Spec :=
  { baseSpec with LoadBalancerSKU := some "basic", NetworkPlugin := some "kubenet" }

def specPools : Spec :=
  { baseSpec with AgentPools :=
      [ { Name := "pool-a", SKU := "Standard_D2s_v3", Replicas := 2, OSDiskSizeGB := 30 },
        { Name := "pool-b", SKU := "Standard_D4s_v3", Replicas := 3, OSDiskSizeGB := 50 },
        { Name := "pool-a", SKU := "Standard_D2s_v3", Replicas := 1, OSDiskSizeGB := 30 } ] }

def mcBase : ManagedCluster :=
  (reconcileDerive baseSpec).toOption.getD (initialProperties baseSpec)

def mc1096 : ManagedCluster :=
  (reconcileDerive specCidr1096).toOption.getD (initialProperties specCidr1096)

def mcPolAzure : ManagedCluster :=
  (reconcileDerive specPolAzure).toOption.getD (initialProperties specPolAzure)

def mcPolCalico : ManagedCluster :=
  (reconcileDerive specPolCalico).toOption.getD (initialProperties specPolCalico)

def mcCustom : ManagedCluster :=
  (reconcileDerive specCustom).toOption.getD (initialProperties specCustom)

def mcPools : ManagedCluster :=
  (reconcileDerive specPools).toOption.getD (initialProperties specPools)

/-- A client whose every operation succeeds. -/
def okClient : Client :=
  { getResp := fun _ _ => .ok "remote-resource"
    getCredentialsResp := fun _ _ => .ok "kubeconfig"
    createOrUpdateResp := fun _ _ _ => none
    deleteResp := fun _ _ => none }

/-- Delete-error value satisfying `azure.ResourceNotFound`. -/
def nfErr : GoDeleteError := { msg := "resource not found", resourceNotFound := true }

/-- A client whose delete reports that the resource does not exist. -/
def notFoundDeleteClient : Client :=
  { okClient with deleteResp := fun _ _ => some nfErr }

/-- A client whose every operation fails with the bare message `boom`,
delete failing with a non-not-found error. -/
def badClient : Client :=
  { getResp := fun _ _ => .error "boom"
    getCredentialsResp := fun _ _ => .error "boom"
    createOrUpdateResp := fun _ _ _ => some "boom"
    deleteResp := fun _ _ => some { msg := "boom", resourceNotFound := false } }

/-- Decidable equality for `Except`, so that concrete derivation results can
be checked by evaluation. -/
instance instDecEqExcept {e a : Type} [DecidableEq e] [DecidableEq a] :
    DecidableEq (Except e a) := fun x y =>
  match x, y with
  | .ok u, .ok v =>
    if h : u = v then .isTrue (by rw [h]) else .isFalse (fun hh => h (Except.ok.inj hh))
  | .error u, .error v =>
    if h : u = v then .isTrue (by rw [h]) else .isFalse (fun hh => h (Except.error.inj hh))
  | .ok _, .error _ => .isFalse (fun hh => Except.noConfusion hh)
  | .error _, .ok _ => .isFalse (fun hh => Except.noConfusion hh)

/-!
Claim theorems.
-/

/-- C1, counterexample to the claim as stated: for the valid CIDR
`10.96.5.7/12` the derived DNS service IP is `10.96.5.10` — the PARSED
ADDRESS with its last byte overwritten — whereas the first address of the
parsed network with its low-order byte overwritten by 10 is `10.96.0.10`. -/
theorem C1_counterexample :
    (reconcileDerive specCidrOffset).map (fun mc => mc.NetworkProfile.DNSServiceIP)
      = .ok (some "10.96.5.10") ∧
    specNetworkFirstDNSIP specCidrOffset.ServiceCIDR = some "10.96.0.10" ∧
    ("10.96.5.10" : String) ≠ "10.96.0.10" :=
  ⟨by decide, by decide, by decide⟩

/-- C1, amended: for every specification with a non-empty service CIDR that
parses, the derived resource propagates the CIDR verbatim and carries as DNS
service IP the PARSED ADDRESS (not necessarily the first address of the network)
with byte 15 overwritten by 10; for `10.96.0.0/12` the derived DNS IP lies in
the CIDR with final octet 10; for the empty string no DNS IP is set. -/
theorem C1_dns_derivation :
    (∀ s mc, s.ServiceCIDR ≠ "" → reconcileDerive s = .ok mc →
      mc.NetworkProfile.ServiceCidr = some s.ServiceCIDR ∧
      ∃ r, net_ParseCIDR s.ServiceCIDR = some r ∧
        mc.NetworkProfile.DNSServiceIP = some (ipString (r.1.set 15 10))) ∧
    (∀ s mc, s.ServiceCIDR = "10.96.0.0/12" → reconcileDerive s = .ok mc →
      ∃ d, mc.NetworkProfile.DNSServiceIP = some d ∧
        cidrContainsIP "10.96.0.0/12" d = true ∧ ipLastOctet d = some 10) ∧
    (∀ s mc, s.ServiceCIDR = "" → reconcileDerive s = .ok mc →
      mc.NetworkProfile.DNSServiceIP = none) := by
  refine ⟨fun s mc h1 hok => reconcileDerive_ok_dns s mc h1 hok, ?_, ?_⟩
  · intro s mc hc hok
    obtain ⟨hsc, r, hr, hdns⟩ :=
      reconcileDerive_ok_dns s mc (by rw [hc]; decide) hok
    rw [hc] at hr
    have hr2 : r = ([0, 0, 0, 0, 0, 0, 0, 0, 0, 0, 255, 255, 10, 96, 0, 0],
        [10, 96, 0, 0], [255, 240, 0, 0]) := by
      have he : net_ParseCIDR "10.96.0.0/12"
          = some ([0, 0, 0, 0, 0, 0, 0, 0, 0, 0, 255, 255, 10, 96, 0, 0],
            [10, 96, 0, 0], [255, 240, 0, 0]) := by decide
      rw [he] at hr
      exact (Option.some.inj hr).symm
    subst hr2
    refine ⟨"10.96.0.10", ?_, by decide, by decide⟩
    rw [hdns]
    decide
  · intro s mc h hok
    exact (reconcileDerive_ok_cidr_empty s mc h hok).2

/-- C1, witness: the amended theorem evaluated at the fixtures with service
CIDR `10.96.0.0/12` and with the empty service CIDR. -/
theorem C1_witness :
    (specCidr1096.ServiceCIDR ≠ "" ∧
      (mc1096.NetworkProfile.ServiceCidr = some specCidr1096.ServiceCIDR ∧
        ∃ r, net_ParseCIDR specCidr1096.ServiceCIDR = some r ∧
          mc1096.NetworkProfile.DNSServiceIP = some (ipString (r.1.set 15 10)))) ∧
    (baseSpec.ServiceCIDR = "" ∧ mcBase.NetworkProfile.DNSServiceIP = none) :=
  ⟨⟨by decide, C1_dns_derivation.1 specCidr1096 mc1096 (by decide) (by decide)⟩,
    ⟨rfl, C1_dns_derivation.2.2 baseSpec mcBase rfl (by decide)⟩⟩

/-- C2: a delete failure satisfying the not-found predicate is suppressed and
Delete succeeds; any other delete failure is surfaced wrapped. -/
theorem C2_delete_idempotent (c : Client) (s : Spec) (e : GoDeleteError)
    (h : c.deleteResp s.ResourceGroup s.Name = some e) :
    (e.resourceNotFound = true →
      Service.Delete c (.ptr (some s))
        = (.ok (), [.delete s.ResourceGroup s.Name])) ∧
    (e.resourceNotFound = false →
      Service.Delete c (.ptr (some s))
        = (.goError (deleteErrText s.Name s.ResourceGroup e.msg),
           [.delete s.ResourceGroup s.Name])) := by
  unfold Service.Delete
  dsimp only
  rw [h]
  constructor
  · intro he; simp [he]
  · intro he; simp [he]

/-- C2, witness: the theorem evaluated at a client whose delete reports
not-found, on the base specification. -/
theorem C2_witness :
    (nfErr.resourceNotFound = true →
      Service.Delete notFoundDeleteClient (.ptr (some baseSpec))
        = (.ok (), [.delete baseSpec.ResourceGroup baseSpec.Name])) ∧
    (nfErr.resourceNotFound = false →
      Service.Delete notFoundDeleteClient (.ptr (some baseSpec))
        = (.goError (deleteErrText baseSpec.Name baseSpec.ResourceGroup nfErr.msg),
           [.delete baseSpec.ResourceGroup baseSpec.Name])) :=
  C2_delete_idempotent notFoundDeleteClient baseSpec nfErr rfl

/-- C3, counterexample to the claim as stated: with `networkPolicy = "weave"`
AND `serviceCIDR = "not-a-cidr"`, Reconcile fails — but with the CIDR parse
error of source line 144, whose message does not enumerate the allowed values
`calico` and `azure`, because the CIDR check at line 140 precedes the policy
check at line 156. -/
theorem C3_counterexample :
    reconcileDerive specWeaveBadCidr
      = .error "failed to parse service cidr: invalid CIDR address: not-a-cidr" ∧
    ¬ ("calico".data <:+: "failed to parse service cidr: invalid CIDR address: not-a-cidr".data) ∧
    ¬ ("azure".data <:+: "failed to parse service cidr: invalid CIDR address: not-a-cidr".data) :=
  ⟨by decide, by decide, by decide⟩

/-- C3, amended: values case-insensitively equal to `azure` or `calico` map to
the corresponding policy in the derived resource; any other value makes the
derivation fail, and — provided no earlier validation error preempts it (the
service CIDR being empty or valid) — the error is the line-162 message, which
enumerates both allowed values; an unset policy leaves the field unset. -/
theorem C3_network_policy :
    (∀ s np mc, s.NetworkPolicy = some np → strEqualFold np "Azure" = true →
      reconcileDerive s = .ok mc →
      mc.NetworkProfile.NetworkPolicy = NetworkPolicyAzure) ∧
    (∀ s np mc, s.NetworkPolicy = some np → strEqualFold np "Azure" = false →
      strEqualFold np "Calico" = true → reconcileDerive s = .ok mc →
      mc.NetworkProfile.NetworkPolicy = NetworkPolicyCalico) ∧
    (∀ s np, s.NetworkPolicy = some np → strEqualFold np "Azure" = false →
      strEqualFold np "Calico" = false → ∃ e, reconcileDerive s = .error e) ∧
    (∀ s np, s.NetworkPolicy = some np → strEqualFold np "Azure" = false →
      strEqualFold np "Calico" = false →
      (s.ServiceCIDR = "" ∨ (net_ParseCIDR s.ServiceCIDR).isSome = true) →
      reconcileDerive s = .error (invalidPolicyText np) ∧
      ("calico".data <:+: (invalidPolicyText np).data) ∧
      ("azure".data <:+: (invalidPolicyText np).data)) ∧
    (∀ s mc, s.NetworkPolicy = none → reconcileDerive s = .ok mc →
      mc.NetworkProfile.NetworkPolicy = "") := by
  refine ⟨fun s np mc h ha hok => reconcileDerive_ok_policy_azure s mc np h ha hok,
    fun s np mc h ha hc hok => reconcileDerive_ok_policy_calico s mc np h ha hc hok,
    fun s np h ha hc => reconcileDerive_invalid_policy_fails s np h ha hc,
    ?_,
    fun s mc h hok => reconcileDerive_ok_policy_none s mc h hok⟩
  intro s np h ha hc hcidr
  refine ⟨reconcileDerive_invalid_policy_msg s np h ha hc hcidr, ?_, ?_⟩
  · have hchunk : ("\x27. Allowed options are \x27" : String).data
        ++ (("calico" : String).data ++ ("\x27 and \x27azure\x27" : String).data)
        = ("\x27. Allowed options are \x27calico\x27 and \x27azure\x27" : String).data := by
      decide
    refine ⟨("invalid network policy: \x27" ++ np ++ "\x27. Allowed options are \x27").data,
      ("\x27 and \x27azure\x27").data, ?_⟩
    simp only [invalidPolicyText, String.data_append, List.append_assoc]
    rw [hchunk]
  · have hchunk : ("\x27. Allowed options are \x27calico\x27 and \x27" : String).data
        ++ (("azure" : String).data ++ ("\x27" : String).data)
        = ("\x27. Allowed options are \x27calico\x27 and \x27azure\x27" : String).data := by
      decide
    refine ⟨("invalid network policy: \x27" ++ np
        ++ "\x27. Allowed options are \x27calico\x27 and \x27").data,
      ("\x27").data, ?_⟩
    simp only [invalidPolicyText, String.data_append, List.append_assoc]
    rw [hchunk]

/-- C3, witness: the amended theorem evaluated at `Azure`, `calico`, `weave`
and unset network-policy fixtures. -/
theorem C3_witness :
    mcPolAzure.NetworkProfile.NetworkPolicy = NetworkPolicyAzure ∧
    mcPolCalico.NetworkProfile.NetworkPolicy = NetworkPolicyCalico ∧
    (∃ e, reconcileDerive specPolWeave = .error e) ∧
    (reconcileDerive specPolWeave = .error (invalidPolicyText "weave") ∧
      ("calico".data <:+: (invalidPolicyText "weave").data) ∧
      ("azure".data <:+: (invalidPolicyText "weave").data)) ∧
    mcBase.NetworkProfile.NetworkPolicy = "" :=
  ⟨C3_network_policy.1 specPolAzure "Azure" mcPolAzure rfl (by decide) (by decide),
    C3_network_policy.2.1 specPolCalico "calico" mcPolCalico rfl (by decide) (by decide)
      (by decide),
    C3_network_policy.2.2.1 specPolWeave "weave" rfl (by decide) (by decide),
    C3_network_policy.2.2.2.1 specPolWeave "weave" rfl (by decide) (by decide) (Or.inl rfl),
    C3_network_policy.2.2.2.2 baseSpec mcBase rfl (by decide)⟩

/-- C4, counterexample to the claim as stated: `GetCredentials` takes a
resource group and name rather than a specification, has no shape guard, and
always performs the provider call — it cannot fail with the
`expected managed cluster specification` validation error. -/
theorem C4_counterexample :
    Service.GetCredentials okClient "g" "n" = (.ok "kubeconfig", [.getCredentials "g" "n"]) ∧
    (Service.GetCredentials okClient "g" "n").2 ≠ [] ∧
    (Service.GetCredentials okClient "g" "n").1 ≠ .error wrongSpecText :=
  ⟨rfl, by decide, by decide⟩

/-- C4, amended: the three specification-taking operations (Get, Reconcile,
Delete) reject every value that is not of the concrete `Spec` shape with the
validation error and perform no provider call; `GetCredentials` does not
accept a specification at all and forwards to the provider unconditionally. -/
theorem C4_wrong_type_guard :
    ∀ c g n,
      Service.Get c .other = (.goError wrongSpecText, []) ∧
      Service.Reconcile c .other = (.goError wrongSpecText, []) ∧
      Service.Delete c .other = (.goError wrongSpecText, []) ∧
      (Service.GetCredentials c g n).2 = [.getCredentials g n] :=
  fun _ _ _ => ⟨rfl, rfl, rfl, rfl⟩

/-- C5: a non-empty service CIDR that fails parsing makes Reconcile fail with
the wrapped parse error before any provider call is performed. -/
theorem C5_invalid_cidr_no_call (c : Client) (s : Spec)
    (h1 : s.ServiceCIDR ≠ "") (h2 : net_ParseCIDR s.ServiceCIDR = none) :
    Service.Reconcile c (.ptr (some s))
      = (.goError ("failed to parse service cidr: " ++ invalidCIDRText s.ServiceCIDR), []) := by
  have hd : reconcileDerive s
      = .error ("failed to parse service cidr: " ++ invalidCIDRText s.ServiceCIDR) := by
    unfold reconcileDerive
    rw [applyServiceCidr_parse_none s _ h1 h2]
  unfold Service.Reconcile
  dsimp only
  rw [hd]

/-- C5, witness: the theorem evaluated at `serviceCIDR = "not-a-cidr"`. -/
theorem C5_witness :
    specBadCidr.ServiceCIDR ≠ "" ∧ net_ParseCIDR specBadCidr.ServiceCIDR = none ∧
    Service.Reconcile okClient (.ptr (some specBadCidr))
      = (.goError ("failed to parse service cidr: " ++ invalidCIDRText specBadCidr.ServiceCIDR),
         []) :=
  ⟨by decide, by decide, C5_invalid_cidr_no_call okClient specBadCidr (by decide) (by decide)⟩

/-- C6: with `loadBalancerSKU`, `networkPlugin` and `networkPolicy` all unset
the derived resource carries the `Standard` SKU, the `Azure` plugin and an
unset network policy; a set `loadBalancerSKU` or `networkPlugin` fully
replaces the corresponding default. -/
theorem C6_defaults :
    (∀ s mc, s.LoadBalancerSKU = none → s.NetworkPlugin = none → s.NetworkPolicy = none →
      reconcileDerive s = .ok mc →
      mc.NetworkProfile.LoadBalancerSku = Standard ∧
      mc.NetworkProfile.NetworkPlugin = Azure ∧
      mc.NetworkProfile.NetworkPolicy = "") ∧
    (∀ s mc v, s.LoadBalancerSKU = some v → reconcileDerive s = .ok mc →
      mc.NetworkProfile.LoadBalancerSku = v) ∧
    (∀ s mc v, s.NetworkPlugin = some v → reconcileDerive s = .ok mc →
      mc.NetworkProfile.NetworkPlugin = v) := by
  refine ⟨?_, ?_, ?_⟩
  · intro s mc hl hp hpol hok
    refine ⟨?_, ?_, reconcileDerive_ok_policy_none s mc hpol hok⟩
    · rw [reconcileDerive_ok_sku s mc hok, hl]; rfl
    · rw [reconcileDerive_ok_plugin s mc hok, hp]; rfl
  · intro s mc v hv hok
    rw [reconcileDerive_ok_sku s mc hok, hv]; rfl
  · intro s mc v hv hok
    rw [reconcileDerive_ok_plugin s mc hok, hv]; rfl

/-- C6, witness: the theorem evaluated at the all-defaults fixture and at the
fixture overriding the SKU with `basic` and the plugin with `kubenet`. -/
theorem C6_witness :
    (mcBase.NetworkProfile.LoadBalancerSku = Standard ∧
      mcBase.NetworkProfile.NetworkPlugin = Azure ∧
      mcBase.NetworkProfile.NetworkPolicy = "") ∧
    mcCustom.NetworkProfile.LoadBalancerSku = "basic" ∧
    mcCustom.NetworkProfile.NetworkPlugin = "kubenet" :=
  ⟨C6_defaults.1 baseSpec mcBase rfl rfl rfl (by decide),
    C6_defaults.2.1 specCustom mcCustom "basic" rfl (by decide),
    C6_defaults.2.2 specCustom mcCustom "kubenet" rfl (by decide)⟩

/-- C7: the derived agent-pool profile list is exactly the input pool list
mapped, in order, to profiles carrying name, VM SKU, disk size, replica count
and the fixed scale-set pool type — same length, no deduplication, no
sorting. -/
theorem C7_agent_pools (s : Spec) (mc : ManagedCluster)
    (hok : reconcileDerive s = .ok mc) :
    mc.AgentPoolProfiles = s.AgentPools.map poolProfile ∧
    mc.AgentPoolProfiles.length = s.AgentPools.length := by
  have h := reconcileDerive_ok_pools s mc hok
  exact ⟨h, by rw [h, List.length_map]⟩

/-- C7, witness: the theorem evaluated at a fixture with three pools, two of
which share the name `pool-a` (passed through undeduplicated). -/
theorem C7_witness :
    mcPools.AgentPoolProfiles = specPools.AgentPools.map poolProfile ∧
    mcPools.AgentPoolProfiles.length = specPools.AgentPools.length :=
  C7_agent_pools specPools mcPools (by decide)

/-- C8, counterexample to the claim as stated: a `Get` failure is surfaced
completely unwrapped — the error reaching the caller is the bare client message
`boom`, containing neither the cluster name nor the resource group. -/
theorem C8_counterexample :
    Service.Get badClient (.ptr (some baseSpec))
      = (.goError "boom", [.get "my-rg" "my-cluster"]) ∧
    ¬ (baseSpec.Name.data <:+: "boom".data) ∧
    ¬ (baseSpec.ResourceGroup.data <:+: "boom".data) :=
  ⟨rfl, by decide, by decide⟩

/-- C8, amended: `Get` surfaces the provider error unmodified; `Reconcile`
wraps it with the operation context of line 183 (no cluster name or resource
group); only `Delete` wraps it with cluster name, resource group and
operation. -/
theorem C8_error_context (c : Client) (s : Spec) (e : String) :
    (c.getResp s.ResourceGroup s.Name = .error e →
      (Service.Get c (.ptr (some s))).1 = .goError e) ∧
    (∀ mc, reconcileDerive s = .ok mc →
      c.createOrUpdateResp s.ResourceGroup s.Name mc = some e →
      (Service.Reconcile c (.ptr (some s))).1 = .goError (createOrUpdateErrText e)) ∧
    (∀ ge, c.deleteResp s.ResourceGroup s.Name = some ge → ge.resourceNotFound = false →
      (Service.Delete c (.ptr (some s))).1
        = .goError (deleteErrText s.Name s.ResourceGroup ge.msg) ∧
      (s.Name.data <:+: (deleteErrText s.Name s.ResourceGroup ge.msg).data) ∧
      (s.ResourceGroup.data <:+: (deleteErrText s.Name s.ResourceGroup ge.msg).data)) := by
  refine ⟨?_, ?_, ?_⟩
  · intro h
    unfold Service.Get
    dsimp only
    rw [h]
  · intro mc hok h
    unfold Service.Reconcile
    dsimp only
    rw [hok]
    dsimp only
    rw [h]
  · intro ge h hnf
    refine ⟨?_, ?_, ?_⟩
    · unfold Service.Delete
      dsimp only
      rw [h]
      simp [hnf]
    · refine ⟨("failed to delete managed cluster " : String).data,
        (" in resource group " ++ s.ResourceGroup ++ ": " ++ ge.msg).data, ?_⟩
      simp only [deleteErrText, String.data_append, List.append_assoc]
    · refine ⟨("failed to delete managed cluster " ++ s.Name
          ++ " in resource group ").data, (": " ++ ge.msg).data, ?_⟩
      simp only [deleteErrText, String.data_append, List.append_assoc]

/-- C8, witness: the amended theorem evaluated at a client failing every
operation with `boom`, on the base specification. -/
theorem C8_witness :
    (Service.Get badClient (.ptr (some baseSpec))).1 = .goError "boom" ∧
    (Service.Reconcile badClient (.ptr (some baseSpec))).1
      = .goError (createOrUpdateErrText "boom") ∧
    ((Service.Delete badClient (.ptr (some baseSpec))).1
        = .goError (deleteErrText baseSpec.Name baseSpec.ResourceGroup
            ({ msg := "boom", resourceNotFound := false } : GoDeleteError).msg) ∧
      (baseSpec.Name.data <:+: (deleteErrText baseSpec.Name baseSpec.ResourceGroup
          ({ msg := "boom", resourceNotFound := false } : GoDeleteError).msg).data) ∧
      (baseSpec.ResourceGroup.data <:+: (deleteErrText baseSpec.Name baseSpec.ResourceGroup
          ({ msg := "boom", resourceNotFound := false } : GoDeleteError).msg).data)) :=
  ⟨(C8_error_context badClient baseSpec "boom").1 rfl,
    (C8_error_context badClient baseSpec "boom").2.1 mcBase (by decide) rfl,
    (C8_error_context badClient baseSpec "boom").2.2
      { msg := "boom", resourceNotFound := false } rfl rfl⟩

/-- C9: no operation mutates the specification — the statement-by-statement
translation of every operation body leaves the pointed-to `Spec` value
unchanged, success or failure alike. -/
theorem C9_spec_not_mutated (s : Spec) :
    reconcileSpecPost s = s ∧ getSpecPost s = s ∧ deleteSpecPost s = s ∧
    getCredentialsSpecPost s = s :=
  ⟨rfl, rfl, rfl, rfl⟩

/-- C10: the nil `*Spec` pointer passes the shape guard of Get, Reconcile and
Delete (the type assertion succeeds for a typed nil), so each operation
proceeds to dereference the nil specification — modelled as the `nilPanic`
outcome — rather than returning the `expected managed cluster specification`
validation error; no provider call is made. -/
theorem C10_nil_spec_panics (c : Client) :
    Service.Get c (.ptr none) = (.nilPanic, []) ∧
    Service.Reconcile c (.ptr none) = (.nilPanic, []) ∧
    Service.Delete c (.ptr none) = (.nilPanic, []) ∧
    (Service.Get c (.ptr none)).1 ≠ .goError wrongSpecText ∧
    (Service.Reconcile c (.ptr none)).1 ≠ .goError wrongSpecText ∧
    (Service.Delete c (.ptr none)).1 ≠ .goError wrongSpecText :=
  ⟨rfl, rfl, rfl, fun h => OpOutcome.noConfusion h, fun h => OpOutcome.noConfusion h,
    fun h => OpOutcome.noConfusion h⟩

end ManagedClusters
